import Mathlib

/-!
Shallow embedding of `app.py` (Perplexity-AI Streamlit app).

The program has two parts that the claims are about:
* `serper_search` (app.py lines 104-121): picks one of five endpoint URLs from
  `search_type`, issues one POST with body `json.dumps({"q": query})` and the
  API-key header, and returns the parsed JSON body on status 200, else `None`.
* `main` (app.py lines 124-381): reads four sidebar toggles, always fetches the
  general web search, conditionally fetches maps/images/videos/shopping, feeds
  the top-5 organic web results into a language-model agent, and renders one
  output section per enabled vertical.

Modelling choices, each noted at its definition:
* JSON numbers are `Int` (no arithmetic is done on them; only Python truthiness
  matters, and `0`/`0.0` are equally falsy).
* The HTTP layer is a parameter `net : Request → HttpResponse`; the agent is a
  parameter `agent : String → Except E String` (`Except.error` = a raised
  exception).
* Streamlit widgets are modelled as pure output structures: a rendered section
  is a value of its `...Out` type, `none` when the section is not rendered.
-/

namespace PerplexityApp

/-- JSON values as produced by `response.json()`. Numbers are modelled as `Int`:
the code does no arithmetic on them, and Python truthiness (`0`/`0.0` falsy) is
preserved. -/
inductive Json where
  | null
  | bool (b : Bool)
  | num (n : Int)
  | str (s : String)
  | arr (elems : List Json)
  | obj (fields : List (String × Json))


/-- Python truthiness of a JSON value (`if x:`). -/
def pyTruthy : Json → Bool
  | .null => false
  | .bool b => b
  | .num n => n != 0
  | .str s => s != ""
  | .arr xs => !xs.isEmpty
  | .obj kvs => !kvs.isEmpty

/-- Python truthiness where the value may be `None` (modelled `Option.none`),
e.g. `if search_results and ...` on the result of `serper_search`. -/
def pyTruthyO : Option Json → Bool
  | none => false
  | some v => pyTruthy v

/-- Python `str()` of a JSON value, as interpolated into f-strings. In the live
data every interpolated field is a string; the rendering of containers is
abbreviated because no claim depends on it. -/
def pyStr : Json → String
  | .null => "None"
  | .bool true => "True"
  | .bool false => "False"
  | .num n => toString n
  | .str s => s
  | .arr _ => "[...]"
  | .obj _ => "<dict>"

/-- Python `k in d` on a dict. The responses consumed by `main` are dicts; `in`
on a non-dict is out of scope and modelled as `false`. -/
def Json.hasKey : Json → String → Bool
  | .obj kvs, k => kvs.any (fun p => p.1 == k)
  | _, _ => false

/-- Python `d.get(k)` with no default: absent key (or non-dict) gives `None`,
modelled as `Option.none`. -/
def jget : Json → String → Option Json
  | .obj kvs, k => (kvs.find? (fun p => p.1 == k)).map Prod.snd
  | _, _ => none

/-- Python `d.get(k, default)`. -/
def jgetD (j : Json) (k : String) (d : Json) : Json := (jget j k).getD d

/-- The list of elements of the value found under a section key. The live API
returns an array there; any other shape would raise in Python and is modelled
as `[]`. -/
def asList : Json → List Json
  | .arr xs => xs
  | _ => []

/-- The key/value pairs of a dict value (Python `.items()`); the live API
returns a dict for `openingHours`. -/
def asObj : Json → List (String × Json)
  | .obj kvs => kvs
  | _ => []

/-! Python string operations used by `main`, implemented over `List Char` so
that they evaluate inside the kernel. `split` is Python `str.split(sep)` for a
non-empty separator: non-overlapping matches scanned left to right. -/

/-- If `pre` is a prefix of `l`, the remainder after it. -/
def dropPre : List Char → List Char → Option (List Char)
  | [], l => some l
  | _ :: _, [] => none
  | c :: cs, d :: ds => if c = d then dropPre cs ds else none

/-- Worker for `pySplit`. The fuel is the input length; with a non-empty
separator every recursive call consumes at least one character, so the fuel
never runs out on the calls `pySplit` makes. -/
def splitCharsAux (sep : List Char) : Nat → List Char → List (List Char)
  | _, [] => [[]]
  | 0, l => [l]
  | fuel + 1, c :: rest =>
    match dropPre sep (c :: rest) with
    | some rem => [] :: splitCharsAux sep fuel rem
    | none =>
      match splitCharsAux sep fuel rest with
      | [] => [[c]]
      | g :: gs => (c :: g) :: gs

/-- Python `s.split(sep)` for non-empty `sep`. -/
def pySplit (s sep : String) : List String :=
  (splitCharsAux sep.data s.data.length s.data).map String.mk

/-- Python `sub in s` (substring test). -/
def containsSub (sub : List Char) : List Char → Bool
  | [] => sub.isEmpty
  | c :: rest => (dropPre sub (c :: rest)).isSome || containsSub sub rest

/-- Python `sub in s` on strings. -/
def pyContains (s sub : String) : Bool := containsSub sub.data s.data

/-- ASCII whitespace for `str.strip()`. -/
def isPySpace (c : Char) : Bool := c = ' ' || c = '\t' || c = '\n' || c = '\r'

/-- Python `s.strip()`. -/
def pyStrip (s : String) : String :=
  String.mk (((s.data.dropWhile isPySpace).reverse.dropWhile isPySpace).reverse)

/-- Python `s.lower()`. -/
def pyLower (s : String) : String := String.mk (s.data.map Char.toLower)

/-! The Serper API client (`serper_search`, app.py lines 22-32 and 104-121). -/

def SHOPPING_SEARCH_URL : String := "https://google.serper.dev/shopping"
def VIDEO_SEARCH_URL : String := "https://google.serper.dev/videos"
def SEARCH_URL : String := "https://google.serper.dev/search"
def IMAGE_SEARCH_URL : String := "https://google.serper.dev/images"
def MAPS_SEARCH_URL : String := "https://google.serper.dev/maps"

/-- The module-level `headers` dict; `SERPER_API_KEY` is read from the
environment at startup and is a parameter here. -/
def headers (apiKey : String) : List (String × String) :=
  [("X-API-KEY", apiKey), ("Content-Type", "application/json")]

/-- The `url = SEARCH_URL; if/elif` chain at the top of `serper_search`
(app.py lines 105-113). -/
def serperUrl (search_type : String) : String :=
  if search_type == "shopping" then SHOPPING_SEARCH_URL
  else if search_type == "videos" then VIDEO_SEARCH_URL
  else if search_type == "images" then IMAGE_SEARCH_URL
  else if search_type == "maps" then MAPS_SEARCH_URL
  else SEARCH_URL

/-- One HTTP request as issued by `requests.post(url, headers=headers,
data=payload)`; the payload `json.dumps({"q": query})` is modelled at the JSON
level. -/
structure Request where
  method : String
  url : String
  reqHeaders : List (String × String)
  body : Json


/-- The single POST that one `serper_search` call issues. -/
def serperRequest (apiKey query search_type : String) : Request :=
  ⟨"POST", serperUrl search_type, headers apiKey, Json.obj [("q", Json.str query)]⟩

/-- The requests one `serper_search` call sends on the wire: exactly the one
POST (the function body is straight-line, no retry and no second call). -/
def serperTrace (apiKey query search_type : String) : List Request :=
  [serperRequest apiKey query search_type]

/-- An HTTP response: status code and parsed JSON body (`response.json()`). -/
structure HttpResponse where
  status_code : Nat
  jsonBody : Json

/-- `serper_search` (app.py lines 104-121): issue the request through the
network `net` and return the parsed body on status 200, else `None`. -/
def serper_search (net : Request → HttpResponse) (apiKey query search_type : String) :
    Option Json :=
  let response := net (serperRequest apiKey query search_type)
  if response.status_code == 200 then some response.jsonBody else none

/-! Per-section item extraction: each section begins with
`if <results> and "<key>" in <results>:` and then indexes `<results>["<key>"]`.
(For maps the same condition also checks `len(...) > 0`; that check is kept in
`renderMaps`.) -/

/-- `search_results and "organic" in search_results` guard plus
`search_results["organic"]` (app.py lines 186-187, 207-209). -/
def organicItems : Option Json → Option (List Json)
  | none => none
  | some j =>
    if pyTruthy j && j.hasKey "organic" then some (asList (jgetD j "organic" Json.null))
    else none

/-- maps guard plus `maps_results["places"]` (app.py line 219). -/
def placesItems : Option Json → Option (List Json)
  | none => none
  | some j =>
    if pyTruthy j && j.hasKey "places" then some (asList (jgetD j "places" Json.null))
    else none

/-- images guard plus `image_results["images"]` (app.py lines 295-296). -/
def imagesItems : Option Json → Option (List Json)
  | none => none
  | some j =>
    if pyTruthy j && j.hasKey "images" then some (asList (jgetD j "images" Json.null))
    else none

/-- videos guard plus `video_results["videos"]` (app.py lines 317-320). -/
def videosItems : Option Json → Option (List Json)
  | none => none
  | some j =>
    if pyTruthy j && j.hasKey "videos" then some (asList (jgetD j "videos" Json.null))
    else none

/-- shopping guard plus `shopping_results["shopping"]` (app.py lines 352-353). -/
def shoppingItems : Option Json → Option (List Json)
  | none => none
  | some j =>
    if pyTruthy j && j.hasKey "shopping" then some (asList (jgetD j "shopping" Json.null))
    else none

/-- Spec-shaped extractor for comparison: the top-level array under key `k` of
a truthy response that has that key. -/
def topArrayItems (k : String) : Option Json → Option (List Json)
  | none => none
  | some j =>
    if pyTruthy j && j.hasKey k then some (asList (jgetD j k Json.null))
    else none

/-! The AI-answer block (app.py lines 181-212). -/

/-- The three lines appended to `search_content` for one organic result
(app.py lines 188-190). -/
def searchEntry (result : Json) : String :=
  "Title: " ++ pyStr (jgetD result "title" (Json.str "No title")) ++ "\n" ++
  "Link: " ++ pyStr (jgetD result "link" (Json.str "No link")) ++ "\n" ++
  "Snippet: " ++ pyStr (jgetD result "snippet" (Json.str "No snippet")) ++ "\n\n"

/-- `search_content` (app.py lines 185-190): starts empty, and appends one
entry per result of `search_results["organic"][:5]` when the guard holds. -/
def searchContent (search_results : Option Json) : String :=
  match organicItems search_results with
  | some results => (results.take 5).foldl (fun acc r => acc ++ searchEntry r) ""
  | none => ""

/-- Text before `{query}` in the prompt f-string (app.py lines 193-201). -/
def promptHead : String :=
  "\n            Based on the following search results and your knowledge, provide a comprehensive answer to the query: \""

/-- Text between `{query}` and `{search_content}` in the prompt f-string. -/
def promptMid : String :=
  "\"\n            \n            Search Results:\n            "

/-- Text after `{search_content}` in the prompt f-string. -/
def promptTail : String :=
  "\n            \n            Provide a detailed, well-structured response that synthesizes information from the search results.\n            Include relevant facts, examples, and explanations.\n            "

/-- The prompt passed to `assistant.run` (app.py lines 193-203). -/
def promptFor (query search_content : String) : String :=
  promptHead ++ query ++ promptMid ++ search_content ++ promptTail

/-- One line of the Sources expander (app.py lines 210-211). -/
structure SourceLine where
  title : String
  link : String
  snippet : String


/-- Field extraction for one source line, with its defaults. -/
def sourceLine (result : Json) : SourceLine :=
  ⟨pyStr (jgetD result "title" (Json.str "No title")),
   pyStr (jgetD result "link" (Json.str "#")),
   pyStr (jgetD result "snippet" (Json.str "No snippet"))⟩

/-- The Sources expander content (app.py lines 207-212): the first 5 organic
results, or nothing when the guard fails. -/
def sourcesOf (search_results : Option Json) : List SourceLine :=
  match organicItems search_results with
  | some results => (results.take 5).map sourceLine
  | none => []

/-- The rendered AI-answer section: the agent's answer plus the source lines. -/
structure AiOut where
  answer : String
  sources : List SourceLine


/-! The maps section (app.py lines 215-288). -/

/-- One folium marker: raw coordinate values plus the popup fields. -/
structure Marker where
  lat : Json
  lng : Json
  popupTitle : String
  popupAddress : String
  popupRating : String


/-- Marker loop body for one place (app.py lines 235-253): the marker is added
only when both coordinates are Python-truthy (`if lat and lng:`). -/
def markerOf (place : Json) : Option Marker :=
  let lat := jget place "latitude"
  let lng := jget place "longitude"
  if pyTruthyO lat && pyTruthyO lng then
    some ⟨lat.getD Json.null, lng.getD Json.null,
      pyStr (jgetD place "title" (Json.str "Unknown Location")),
      pyStr (jgetD place "address" (Json.str "No address available")),
      pyStr (jgetD place "rating" (Json.str "N/A"))⟩
  else none

/-- `hours_text` (app.py lines 270-271). -/
def hoursText (place : Json) : String :=
  let hours := jgetD place "openingHours" (Json.obj [])
  if pyTruthy hours then
    String.intercalate "<br>" ((asObj hours).map (fun p => p.1 ++ ": " ++ pyStr p.2))
  else "Hours not available"

/-- One place detail card (app.py lines 260-286), with its defaults. -/
structure PlaceCard where
  title : String
  address : String
  rating : String
  ratingCount : String
  phone : String
  website : String
  placeType : String
  hours : String


/-- Field extraction for one place card. -/
def placeCard (place : Json) : PlaceCard :=
  ⟨pyStr (jgetD place "title" (Json.str "Unknown Location")),
   pyStr (jgetD place "address" (Json.str "No address available")),
   pyStr (jgetD place "rating" (Json.str "N/A")),
   pyStr (jgetD place "ratingCount" (Json.str "0")),
   pyStr (jgetD place "phoneNumber" (Json.str "Not available")),
   pyStr (jgetD place "website" (Json.str "#")),
   pyStr (jgetD place "type" (Json.str "Location")),
   hoursText place⟩

/-- The rendered maps section: the empty-state info message, or the map
(center and markers) plus the place detail cards. -/
inductive MapsOut where
  | noData
  | mapAndCards (center : Json × Json) (markers : List Marker) (cards : List PlaceCard)


/-- Maps section (app.py lines 215-288): guard including `len(...) > 0`, map
center from the first place with per-coordinate default 0, one marker per
truthy-coordinate place, and detail cards for the first 5 places. -/
def renderMaps (maps_results : Option Json) : MapsOut :=
  match placesItems maps_results with
  | some places =>
    if places.length > 0 then
      let first_place := places.headD Json.null
      .mapAndCards
        (jgetD first_place "latitude" (Json.num 0), jgetD first_place "longitude" (Json.num 0))
        (places.filterMap markerOf)
        ((places.take 5).map placeCard)
    else .noData
  | none => .noData

/-! The images section (app.py lines 291-310). -/

/-- One displayed image: the `imageUrl` value and the caption. -/
structure ImageCard where
  imageUrl : Json
  caption : String


/-- One image (app.py lines 304-308): caption is the title up to the first
`"..."` when the title is truthy, else empty. -/
def imageCard (img : Json) : ImageCard :=
  ⟨jgetD img "imageUrl" (Json.str ""),
   if pyTruthyO (jget img "title") then
     (pySplit (pyStr (jgetD img "title" (Json.str ""))) "...").headD ""
   else ""⟩

/-- The rendered images section. -/
inductive ImagesOut where
  | noData
  | grid (cards : List ImageCard)


/-- Images section (app.py lines 291-310): up to 10 images. -/
def renderImages (image_results : Option Json) : ImagesOut :=
  match imagesItems image_results with
  | some imgs => .grid ((imgs.take 10).map imageCard)
  | none => .noData

/-! The videos section (app.py lines 313-345). -/

/-- The YouTube-source filter (app.py lines 319-322):
`video.get("source", "").strip().lower() == "youtube"`. -/
def isYoutubeSource (video : Json) : Bool :=
  pyLower (pyStrip (pyStr (jgetD video "source" (Json.str "")))) == "youtube"

/-- One displayed video. -/
structure VideoCard where
  embedUrl : String
  title : String
  channel : String
  duration : String


/-- YouTube id extraction (app.py line 334):
`link.split("v=")[-1].split("&")[0]`. -/
def videoIdOf (link : String) : String :=
  (pySplit ((pySplit link "v=").getLastD "") "&").headD ""

/-- Loop body for one video (app.py lines 326-341): fields with defaults, then
`continue` (here `none`) unless the link contains `"youtube.com/watch?v="`. -/
def videoCardOf (video : Json) : Option VideoCard :=
  let title := pyStr (jgetD video "title" (Json.str "Unknown Video"))
  let link := pyStr (jgetD video "link" (Json.str "#"))
  let duration := pyStr (jgetD video "duration" (Json.str "Unknown duration"))
  let channel := pyStr (jgetD video "channel" (Json.str "Unknown Channel"))
  if pyContains link "youtube.com/watch?v=" then
    some ⟨"https://www.youtube.com/embed/" ++ videoIdOf link, title, channel, duration⟩
  else none

/-- The rendered videos section: missing data, no YouTube-source videos, or
the displayed cards. -/
inductive VideosOut where
  | noData
  | noRelevant
  | cardsOut (cards : List VideoCard)


/-- Videos section (app.py lines 313-345): filter to YouTube sources, then
show the first 6, skipping entries whose link is not a watch link. -/
def renderVideos (video_results : Option Json) : VideosOut :=
  match videosItems video_results with
  | some vids =>
    let youtube_videos := vids.filter isYoutubeSource
    if youtube_videos.isEmpty then .noRelevant
    else .cardsOut ((youtube_videos.take 6).filterMap videoCardOf)
  | none => .noData

/-! The shopping section (app.py lines 348-381). -/

/-- One product card (app.py lines 357-379), with its defaults. -/
structure ProductCard where
  title : String
  link : String
  price : String
  productSource : String
  imageUrl : Json
  rating : String


/-- Field extraction for one product card. -/
def productCard (product : Json) : ProductCard :=
  ⟨pyStr (jgetD product "title" (Json.str "Unknown Product")),
   pyStr (jgetD product "link" (Json.str "#")),
   pyStr (jgetD product "price" (Json.str "Price not available")),
   pyStr (jgetD product "source" (Json.str "Unknown Source")),
   jgetD product "imageUrl" (Json.str ""),
   pyStr (jgetD product "rating" (Json.str "No rating"))⟩

/-- The rendered shopping section. -/
inductive ShoppingOut where
  | noData
  | grid (cards : List ProductCard)


/-- Shopping section (app.py lines 348-381): up to 10 products. -/
def renderShopping (shopping_results : Option Json) : ShoppingOut :=
  match shoppingItems shopping_results with
  | some products => .grid ((products.take 10).map productCard)
  | none => .noData

/-! The page: toggles, fetch phase and render phase of `main`. -/

/-- The four sidebar toggles (app.py lines 139-142); the AI answer has no
toggle and is always shown. -/
structure Toggles where
  show_maps : Bool
  show_images : Bool
  show_videos : Bool
  show_shopping : Bool

/-- The whole rendered page: the AI section plus one optional section per
vertical, `none` when the section is not rendered. -/
structure PageOut where
  ai : AiOut
  maps : Option MapsOut
  images : Option ImagesOut
  videos : Option VideosOut
  shopping : Option ShoppingOut


/-- Render phase of `main` (app.py lines 181-381). The agent call comes first
and is not wrapped in any error handling, so `Except.error` (a raised
exception) aborts the whole render. Each `show_X and X_container` condition is
`show_X`, since the container was created exactly when the toggle is on
(app.py lines 161-164). -/
def renderPage {E : Type} (agent : String → Except E String) (t : Toggles) (query : String)
    (search_results maps_results image_results video_results shopping_results : Option Json) :
    Except E PageOut :=
  match agent (promptFor query (searchContent search_results)) with
  | .error e => .error e
  | .ok answer =>
    .ok ⟨⟨answer, sourcesOf search_results⟩,
      if t.show_maps then some (renderMaps maps_results) else none,
      if t.show_images then some (renderImages image_results) else none,
      if t.show_videos then some (renderVideos video_results) else none,
      if t.show_shopping then some (renderShopping shopping_results) else none⟩

/-- The requests issued by the fetch phase of `main` (app.py lines 167-175),
in code order: the general search always, each optional vertical only when its
toggle is on. -/
def issuedRequests (apiKey : String) (t : Toggles) (query : String) : List Request :=
  [serperRequest apiKey query "search"]
    ++ (if t.show_maps then [serperRequest apiKey query "maps"] else [])
    ++ (if t.show_images then [serperRequest apiKey query "images"] else [])
    ++ (if t.show_videos then [serperRequest apiKey query "videos"] else [])
    ++ (if t.show_shopping then [serperRequest apiKey query "shopping"] else [])

/-- The search-button body of `main` (app.py lines 150-381): fetch the general
search, conditionally fetch each optional vertical, then render. (The `query`
default of `serper_search`'s `search_type` parameter is `"search"`, written
explicitly here.) -/
def runMain {E : Type} (net : Request → HttpResponse) (agent : String → Except E String)
    (apiKey : String) (t : Toggles) (query : String) : Except E PageOut :=
  let search_results := serper_search net apiKey query "search"
  let maps_results := if t.show_maps then serper_search net apiKey query "maps" else none
  let image_results := if t.show_images then serper_search net apiKey query "images" else none
  let video_results := if t.show_videos then serper_search net apiKey query "videos" else none
  let shopping_results := if t.show_shopping then serper_search net apiKey query "shopping" else none
  renderPage agent t query search_results maps_results image_results video_results shopping_results

end PerplexityApp

namespace PerplexityApp

/-! Theorems about the claims. -/

/-- C2: for every query and each of the five verticals, `serper_search` issues
exactly one POST, with JSON body `{"q": query}` and the `X-API-KEY` header, to
the endpoint URL of that vertical; and the section renderers consume exactly
the top-level array keys `organic`, `shopping`, `videos`, `images`, `places`
for the verticals `search`, `shopping`, `videos`, `images`, `maps`. -/
theorem claim_C2 (apiKey query : String) :
    ((serperRequest apiKey query "search").url = SEARCH_URL
      ∧ (serperRequest apiKey query "shopping").url = SHOPPING_SEARCH_URL
      ∧ (serperRequest apiKey query "videos").url = VIDEO_SEARCH_URL
      ∧ (serperRequest apiKey query "images").url = IMAGE_SEARCH_URL
      ∧ (serperRequest apiKey query "maps").url = MAPS_SEARCH_URL)
    ∧ (∀ search_type, (serperTrace apiKey query search_type).length = 1
        ∧ (serperRequest apiKey query search_type).method = "POST"
        ∧ (serperRequest apiKey query search_type).body = Json.obj [("q", Json.str query)]
        ∧ ("X-API-KEY", apiKey) ∈ (serperRequest apiKey query search_type).reqHeaders)
    ∧ (∀ r, organicItems r = topArrayItems "organic" r
        ∧ shoppingItems r = topArrayItems "shopping" r
        ∧ videosItems r = topArrayItems "videos" r
        ∧ imagesItems r = topArrayItems "images" r
        ∧ placesItems r = topArrayItems "places" r) := by
  refine ⟨⟨rfl, rfl, rfl, rfl, rfl⟩, fun search_type => ⟨rfl, rfl, rfl, ?_⟩, fun r => ?_⟩
  · simp [serperRequest, headers]
  · cases r <;> exact ⟨rfl, rfl, rfl, rfl, rfl⟩

/-- C3: a non-200 response makes `serper_search` return `None` (no exception,
no retry is modelled: the body is a single conditional), a 200 response yields
the parsed JSON body, and each section renders its empty-state message when
its fetch returned `None`. -/
theorem claim_C3 (net : Request → HttpResponse) (apiKey query search_type : String) :
    ((net (serperRequest apiKey query search_type)).status_code ≠ 200 →
      serper_search net apiKey query search_type = none)
    ∧ ((net (serperRequest apiKey query search_type)).status_code = 200 →
      serper_search net apiKey query search_type
        = some (net (serperRequest apiKey query search_type)).jsonBody)
    ∧ renderMaps none = MapsOut.noData
    ∧ renderImages none = ImagesOut.noData
    ∧ renderVideos none = VideosOut.noData
    ∧ renderShopping none = ShoppingOut.noData := by
  refine ⟨?_, ?_, rfl, rfl, rfl, rfl⟩
  · intro h
    unfold serper_search
    simp only [beq_iff_eq]
    rw [if_neg h]
  · intro h
    unfold serper_search
    simp only [beq_iff_eq]
    rw [if_pos h]

theorem claim_C3_witness :
    serper_search (fun _ => HttpResponse.mk 404 Json.null) "key" "q" "search" = none
    ∧ serper_search (fun _ => HttpResponse.mk 200 (Json.obj [])) "key" "q" "maps"
        = some (Json.obj []) :=
  ⟨(claim_C3 (fun _ => HttpResponse.mk 404 Json.null) "key" "q" "search").1 (by decide),
   (claim_C3 (fun _ => HttpResponse.mk 200 (Json.obj [])) "key" "q" "maps").2.1 rfl⟩

/-- C4: each rendered section is a function of its own vertical's response
only: with the toggles, query, agent and web response fixed, varying every
other vertical's payload leaves the section's output unchanged (and the AI
section is unchanged by any optional vertical's payload). -/
theorem claim_C4 {E : Type} (agent : String → Except E String) (t : Toggles) (query : String)
    (sr mr mr' ir ir' vr vr' sp sp' : Option Json) :
    (Except.map PageOut.videos (renderPage agent t query sr mr ir vr sp)
      = Except.map PageOut.videos (renderPage agent t query sr mr' ir' vr sp'))
    ∧ (Except.map PageOut.shopping (renderPage agent t query sr mr ir vr sp)
      = Except.map PageOut.shopping (renderPage agent t query sr mr' ir' vr' sp))
    ∧ (Except.map PageOut.maps (renderPage agent t query sr mr ir vr sp)
      = Except.map PageOut.maps (renderPage agent t query sr mr ir' vr' sp'))
    ∧ (Except.map PageOut.images (renderPage agent t query sr mr' ir vr' sp')
      = Except.map PageOut.images (renderPage agent t query sr mr ir vr sp))
    ∧ (Except.map PageOut.ai (renderPage agent t query sr mr ir vr sp)
      = Except.map PageOut.ai (renderPage agent t query sr mr' ir' vr' sp')) := by
  refine ⟨?_, ?_, ?_, ?_, ?_⟩ <;>
    (unfold renderPage
     cases agent (promptFor query (searchContent sr)) <;> rfl)

/-- Auxiliary: the optional-section fields of a successfully rendered page. -/
theorem renderPage_ok_sections {E : Type} {agent : String → Except E String} {t : Toggles}
    {query : String} {sr mr ir vr sp : Option Json} {page : PageOut}
    (h : renderPage agent t query sr mr ir vr sp = Except.ok page) :
    page.maps = (if t.show_maps then some (renderMaps mr) else none)
    ∧ page.images = (if t.show_images then some (renderImages ir) else none)
    ∧ page.videos = (if t.show_videos then some (renderVideos vr) else none)
    ∧ page.shopping = (if t.show_shopping then some (renderShopping sp) else none) := by
  unfold renderPage at h
  cases hA : agent (promptFor query (searchContent sr)) with
  | error e => rw [hA] at h; cases h
  | ok answer =>
    rw [hA] at h
    injection h with h
    subst h
    exact ⟨rfl, rfl, rfl, rfl⟩

/-- C1: the general web search request is always issued; each optional
vertical's request is issued iff its toggle is on; and on a successful render
each optional section is present in the page iff its toggle is on. -/
theorem claim_C1 {E : Type} (net : Request → HttpResponse) (agent : String → Except E String)
    (apiKey : String) (t : Toggles) (query : String) :
    (serperRequest apiKey query "search" ∈ issuedRequests apiKey t query)
    ∧ ((serperRequest apiKey query "maps" ∈ issuedRequests apiKey t query) ↔ t.show_maps = true)
    ∧ ((serperRequest apiKey query "images" ∈ issuedRequests apiKey t query) ↔ t.show_images = true)
    ∧ ((serperRequest apiKey query "videos" ∈ issuedRequests apiKey t query) ↔ t.show_videos = true)
    ∧ ((serperRequest apiKey query "shopping" ∈ issuedRequests apiKey t query) ↔ t.show_shopping = true)
    ∧ (∀ page, runMain net agent apiKey t query = Except.ok page →
        page.maps.isSome = t.show_maps
        ∧ page.images.isSome = t.show_images
        ∧ page.videos.isSome = t.show_videos
        ∧ page.shopping.isSome = t.show_shopping) := by
  obtain ⟨m, i, v, s⟩ := t
  refine ⟨?_, ?_, ?_, ?_, ?_, ?_⟩
  · simp [issuedRequests]
  · cases m <;> cases i <;> cases v <;> cases s <;>
      simp [issuedRequests, serperRequest, serperUrl, headers,
        SHOPPING_SEARCH_URL, VIDEO_SEARCH_URL, SEARCH_URL, IMAGE_SEARCH_URL, MAPS_SEARCH_URL,
        Request.mk.injEq]
  · cases m <;> cases i <;> cases v <;> cases s <;>
      simp [issuedRequests, serperRequest, serperUrl, headers,
        SHOPPING_SEARCH_URL, VIDEO_SEARCH_URL, SEARCH_URL, IMAGE_SEARCH_URL, MAPS_SEARCH_URL,
        Request.mk.injEq]
  · cases m <;> cases i <;> cases v <;> cases s <;>
      simp [issuedRequests, serperRequest, serperUrl, headers,
        SHOPPING_SEARCH_URL, VIDEO_SEARCH_URL, SEARCH_URL, IMAGE_SEARCH_URL, MAPS_SEARCH_URL,
        Request.mk.injEq]
  · cases m <;> cases i <;> cases v <;> cases s <;>
      simp [issuedRequests, serperRequest, serperUrl, headers,
        SHOPPING_SEARCH_URL, VIDEO_SEARCH_URL, SEARCH_URL, IMAGE_SEARCH_URL, MAPS_SEARCH_URL,
        Request.mk.injEq]
  · intro page h
    obtain ⟨h1, h2, h3, h4⟩ := renderPage_ok_sections (by simpa only [runMain] using h)
    refine ⟨?_, ?_, ?_, ?_⟩
    · rw [h1]; cases m <;> rfl
    · rw [h2]; cases i <;> rfl
    · rw [h3]; cases v <;> rfl
    · rw [h4]; cases s <;> rfl

theorem claim_C1_witness :
    (PageOut.mk (AiOut.mk "ans" []) (some MapsOut.noData) none (some VideosOut.noData)
        none).maps.isSome = true
    ∧ (PageOut.mk (AiOut.mk "ans" []) (some MapsOut.noData) none (some VideosOut.noData)
        none).images.isSome = false
    ∧ (PageOut.mk (AiOut.mk "ans" []) (some MapsOut.noData) none (some VideosOut.noData)
        none).videos.isSome = true
    ∧ (PageOut.mk (AiOut.mk "ans" []) (some MapsOut.noData) none (some VideosOut.noData)
        none).shopping.isSome = false :=
  (claim_C1 (fun _ => HttpResponse.mk 404 Json.null)
      (fun _ => (Except.ok "ans" : Except String String))
      "key" (Toggles.mk true false true false) "q").2.2.2.2.2
    (PageOut.mk (AiOut.mk "ans" []) (some MapsOut.noData) none (some VideosOut.noData) none)
    rfl


/-- Auxiliary: a successful `d.get(k)` means the dict has the key and is
truthy (a dict with a member is non-empty). -/
theorem hasKey_of_jget_some {j : Json} {k : String} {v : Json} (h : jget j k = some v) :
    j.hasKey k = true ∧ pyTruthy j = true := by
  cases j with
  | obj kvs =>
    simp only [jget, Option.map_eq_some'] at h
    obtain ⟨p, hp, hv⟩ := h
    have hmem := List.mem_of_find?_eq_some hp
    have hprop := List.find?_some hp
    refine ⟨?_, ?_⟩
    · simp only [Json.hasKey, List.any_eq_true]
      exact ⟨p, hmem, hprop⟩
    · simp only [pyTruthy]
      cases kvs with
      | nil => cases hmem
      | cons a l => rfl
  | null => simp [jget] at h
  | bool b => simp [jget] at h
  | num n => simp [jget] at h
  | str s => simp [jget] at h
  | arr xs => simp [jget] at h

/-- Auxiliary: a dict without the key yields `None` from `.get`. -/
theorem jget_eq_none_of_hasKey_false {j : Json} {k : String} (h : j.hasKey k = false) :
    jget j k = none := by
  cases j with
  | obj kvs =>
    simp only [Json.hasKey, List.any_eq_true, not_exists] at h
    simp only [jget, Option.map_eq_none', List.find?_eq_none]
    intro p hp
    simp only [List.any_eq_false] at h
    exact h p hp
  | null => rfl
  | bool b => rfl
  | num n => rfl
  | str s => rfl
  | arr xs => rfl

/-- C5: `search_content` is empty when the web response is `None` or lacks
`organic`; otherwise it is the concatenation of one three-line entry per
result of the first at most 5 organic entries, with the defaults
`No title` / `No link` / `No snippet`; and the prompt embeds `search_content`
between fixed template parts. -/
theorem claim_C5 :
    searchContent none = ""
    ∧ (∀ j, j.hasKey "organic" = false → searchContent (some j) = "")
    ∧ (∀ j results, jget j "organic" = some (Json.arr results) →
        searchContent (some j) = String.join ((results.take 5).map searchEntry))
    ∧ (∀ res, res.hasKey "title" = false → res.hasKey "link" = false →
        res.hasKey "snippet" = false →
        searchEntry res = "Title: No title\nLink: No link\nSnippet: No snippet\n\n")
    ∧ (∀ query sr, promptFor query (searchContent sr)
        = promptHead ++ query ++ promptMid ++ searchContent sr ++ promptTail) := by
  refine ⟨rfl, ?_, ?_, ?_, fun query sr => rfl⟩
  · intro j h
    simp [searchContent, organicItems, h]
  · intro j results h
    obtain ⟨hk, ht⟩ := hasKey_of_jget_some h
    simp only [searchContent, organicItems, hk, ht, Bool.and_self, if_true]
    rw [jgetD, h]
    simp only [Option.getD_some, asList]
    rw [String.join, List.foldl_map]
  · intro res h1 h2 h3
    have g1 := jget_eq_none_of_hasKey_false h1
    have g2 := jget_eq_none_of_hasKey_false h2
    have g3 := jget_eq_none_of_hasKey_false h3
    simp [searchEntry, jgetD, g1, g2, g3, pyStr]

theorem claim_C5_witness :
    searchContent none = ""
    ∧ searchContent (some (Json.obj [("foo", Json.null)])) = ""
    ∧ searchContent (some (Json.obj [("organic",
        Json.arr (List.replicate 6 (Json.obj [])))]))
        = String.join (((List.replicate 6 (Json.obj [])).take 5).map searchEntry)
    ∧ searchEntry (Json.obj []) = "Title: No title\nLink: No link\nSnippet: No snippet\n\n" :=
  ⟨claim_C5.1,
   claim_C5.2.1 (Json.obj [("foo", Json.null)]) rfl,
   claim_C5.2.2.1 (Json.obj [("organic", Json.arr (List.replicate 6 (Json.obj [])))])
     (List.replicate 6 (Json.obj [])) rfl,
   claim_C5.2.2.2.1 (Json.obj []) rfl rfl rfl⟩

/-- C6: every field lookup made while rendering falls back to its fixed
default string when the field is absent: the place card, product card, source
line, image card, map-center coordinate and marker lookups all yield their
documented defaults on an item without the field, and the video card fields
default likewise (observable when the item has a watch link). -/
theorem claim_C6 (p p2 : Json) (h : ∀ k, p.hasKey k = false)
    (h2t : p2.hasKey "title" = false) (h2d : p2.hasKey "duration" = false)
    (h2c : p2.hasKey "channel" = false)
    (h2l : jget p2 "link" = some (Json.str "https://youtube.com/watch?v=abc")) :
    placeCard p = PlaceCard.mk "Unknown Location" "No address available" "N/A" "0"
        "Not available" "#" "Location" "Hours not available"
    ∧ productCard p = ProductCard.mk "Unknown Product" "#" "Price not available"
        "Unknown Source" (Json.str "") "No rating"
    ∧ sourceLine p = SourceLine.mk "No title" "#" "No snippet"
    ∧ imageCard p = ImageCard.mk (Json.str "") ""
    ∧ jgetD p "latitude" (Json.num 0) = Json.num 0
    ∧ markerOf p = none
    ∧ videoCardOf p2 = some (VideoCard.mk "https://www.youtube.com/embed/abc"
        "Unknown Video" "Unknown Channel" "Unknown duration") := by
  have g : ∀ k, jget p k = none := fun k => jget_eq_none_of_hasKey_false (h k)
  have gt := jget_eq_none_of_hasKey_false h2t
  have gd := jget_eq_none_of_hasKey_false h2d
  have gc := jget_eq_none_of_hasKey_false h2c
  refine ⟨?_, ?_, ?_, ?_, ?_, ?_, ?_⟩
  · simp [placeCard, jgetD, g, pyStr, hoursText, pyTruthy]
  · simp [productCard, jgetD, g, pyStr]
  · simp [sourceLine, jgetD, g, pyStr]
  · simp [imageCard, jgetD, g, pyTruthyO]
  · simp [jgetD, g]
  · simp [markerOf, g, pyTruthyO]
  · simp only [videoCardOf, jgetD, gt, gd, gc, h2l, Option.getD_some, Option.getD_none, pyStr]
    rfl

theorem claim_C6_witness :
    placeCard (Json.obj []) = PlaceCard.mk "Unknown Location" "No address available" "N/A" "0"
        "Not available" "#" "Location" "Hours not available"
    ∧ productCard (Json.obj []) = ProductCard.mk "Unknown Product" "#" "Price not available"
        "Unknown Source" (Json.str "") "No rating"
    ∧ sourceLine (Json.obj []) = SourceLine.mk "No title" "#" "No snippet"
    ∧ imageCard (Json.obj []) = ImageCard.mk (Json.str "") ""
    ∧ jgetD (Json.obj []) "latitude" (Json.num 0) = Json.num 0
    ∧ markerOf (Json.obj []) = none
    ∧ videoCardOf (Json.obj [("link", Json.str "https://youtube.com/watch?v=abc")])
        = some (VideoCard.mk "https://www.youtube.com/embed/abc"
            "Unknown Video" "Unknown Channel" "Unknown duration") :=
  claim_C6 (Json.obj []) (Json.obj [("link", Json.str "https://youtube.com/watch?v=abc")])
    (fun k => rfl) (by decide) (by decide) (by decide) rfl

/-- C7: the agent call is not wrapped in error handling: whenever
`assistant.run` raises (`Except.error e`), the whole page render is that
error and no section output is produced. -/
theorem claim_C7 {E : Type} (net : Request → HttpResponse) (agent : String → Except E String)
    (apiKey : String) (t : Toggles) (query : String) (e : E)
    (h : agent (promptFor query (searchContent (serper_search net apiKey query "search")))
      = Except.error e) :
    runMain net agent apiKey t query = Except.error e := by
  simp only [runMain, renderPage]
  rw [h]

theorem claim_C7_witness :
    runMain (fun _ => HttpResponse.mk 404 Json.null)
      (fun _ => (Except.error "boom" : Except String String))
      "key" (Toggles.mk true true true true) "q" = Except.error "boom" :=
  claim_C7 (fun _ => HttpResponse.mk 404 Json.null)
    (fun _ => (Except.error "boom" : Except String String))
    "key" (Toggles.mk true true true true) "q" "boom" rfl

/-- C8: any `search_type` other than the four named optional verticals falls
through the `if/elif` chain to the general web endpoint; no error is raised
for an unknown vertical name. -/
theorem claim_C8 (s : String) (h1 : s ≠ "shopping") (h2 : s ≠ "videos")
    (h3 : s ≠ "images") (h4 : s ≠ "maps") :
    serperUrl s = SEARCH_URL := by
  unfold serperUrl
  simp only [beq_iff_eq]
  rw [if_neg h1, if_neg h2, if_neg h3, if_neg h4]

theorem claim_C8_witness : serperUrl "an-unknown-vertical" = SEARCH_URL :=
  claim_C8 "an-unknown-vertical" (by decide) (by decide) (by decide) (by decide)

end PerplexityApp

namespace PerplexityApp

/-- Auxiliary: a produced video card comes from a watch link and embeds the
extracted id. -/
theorem videoCardOf_some {v : Json} {c : VideoCard} (h : videoCardOf v = some c) :
    pyContains (pyStr (jgetD v "link" (Json.str "#"))) "youtube.com/watch?v=" = true
    ∧ c.embedUrl = "https://www.youtube.com/embed/"
        ++ videoIdOf (pyStr (jgetD v "link" (Json.str "#"))) := by
  simp only [videoCardOf] at h
  cases hc : pyContains (pyStr (jgetD v "link" (Json.str "#"))) "youtube.com/watch?v=" with
  | false => rw [hc] at h; simp at h
  | true =>
    rw [hc] at h
    simp only [if_true] at h
    refine ⟨rfl, ?_⟩
    simp only [Option.some.injEq] at h
    rw [← h]

/-- C9: when the videos section shows cards, they are exactly the watch-link
survivors of the first 6 YouTube-source entries: at most 6 cards, every card
comes from an entry whose stripped lowercased source is `youtube` and whose
link contains `youtube.com/watch?v=`, the embed URL is built from the id after
the last `v=` truncated at the first `&`, and a YouTube-source entry among the
first 6 whose link lacks the substring yields no card. -/
theorem claim_C9 (r : Option Json) (vids : List Json)
    (hv : videosItems r = some vids)
    (hne : vids.filter isYoutubeSource ≠ []) :
    ∃ cards, renderVideos r = VideosOut.cardsOut cards
      ∧ cards = ((vids.filter isYoutubeSource).take 6).filterMap videoCardOf
      ∧ cards.length ≤ 6
      ∧ (∀ c ∈ cards, ∃ v ∈ vids, isYoutubeSource v = true
          ∧ pyContains (pyStr (jgetD v "link" (Json.str "#"))) "youtube.com/watch?v=" = true
          ∧ c.embedUrl = "https://www.youtube.com/embed/"
              ++ videoIdOf (pyStr (jgetD v "link" (Json.str "#"))))
      ∧ (∀ v ∈ (vids.filter isYoutubeSource).take 6,
          pyContains (pyStr (jgetD v "link" (Json.str "#"))) "youtube.com/watch?v=" = false →
          videoCardOf v = none) := by
  have hne' : (vids.filter isYoutubeSource).isEmpty = false := by
    cases hfe : vids.filter isYoutubeSource with
    | nil => exact absurd hfe hne
    | cons a l => rfl
  refine ⟨((vids.filter isYoutubeSource).take 6).filterMap videoCardOf, ?_, rfl, ?_, ?_, ?_⟩
  · simp [renderVideos, hv, hne']
  · exact le_trans (List.length_filterMap_le _ _) (List.length_take_le _ _)
  · intro c hc
    rw [List.mem_filterMap] at hc
    obtain ⟨v, hvmem, hcard⟩ := hc
    have hv6 := List.mem_of_mem_take hvmem
    rw [List.mem_filter] at hv6
    obtain ⟨hvin, hsrc⟩ := hv6
    obtain ⟨hlink, hembed⟩ := videoCardOf_some hcard
    exact ⟨v, hvin, hsrc, hlink, hembed⟩
  · intro v _ hfalse
    simp [videoCardOf, hfalse]

theorem claim_C9_witness :
    ∃ cards,
      renderVideos (some (Json.obj [("videos", Json.arr
          [Json.obj [("source", Json.str "YouTube"),
             ("link", Json.str "https://www.youtube.com/watch?v=abc&t=10s")],
           Json.obj [("source", Json.str "Vimeo"), ("link", Json.str "https://vimeo.com/1")],
           Json.obj [("source", Json.str " youtube "),
             ("link", Json.str "https://youtu.be/xyz")]])]))
        = VideosOut.cardsOut cards
      ∧ cards = (([Json.obj [("source", Json.str "YouTube"),
             ("link", Json.str "https://www.youtube.com/watch?v=abc&t=10s")],
           Json.obj [("source", Json.str "Vimeo"), ("link", Json.str "https://vimeo.com/1")],
           Json.obj [("source", Json.str " youtube "),
             ("link", Json.str "https://youtu.be/xyz")]].filter isYoutubeSource).take
               6).filterMap videoCardOf
      ∧ cards.length ≤ 6
      ∧ (∀ c ∈ cards, ∃ v ∈ [Json.obj [("source", Json.str "YouTube"),
             ("link", Json.str "https://www.youtube.com/watch?v=abc&t=10s")],
           Json.obj [("source", Json.str "Vimeo"), ("link", Json.str "https://vimeo.com/1")],
           Json.obj [("source", Json.str " youtube "),
             ("link", Json.str "https://youtu.be/xyz")]], isYoutubeSource v = true
          ∧ pyContains (pyStr (jgetD v "link" (Json.str "#"))) "youtube.com/watch?v=" = true
          ∧ c.embedUrl = "https://www.youtube.com/embed/"
              ++ videoIdOf (pyStr (jgetD v "link" (Json.str "#"))))
      ∧ (∀ v ∈ ([Json.obj [("source", Json.str "YouTube"),
             ("link", Json.str "https://www.youtube.com/watch?v=abc&t=10s")],
           Json.obj [("source", Json.str "Vimeo"), ("link", Json.str "https://vimeo.com/1")],
           Json.obj [("source", Json.str " youtube "),
             ("link", Json.str "https://youtu.be/xyz")]].filter isYoutubeSource).take 6,
          pyContains (pyStr (jgetD v "link" (Json.str "#"))) "youtube.com/watch?v=" = false →
          videoCardOf v = none) :=
  claim_C9 (some (Json.obj [("videos", Json.arr
      [Json.obj [("source", Json.str "YouTube"),
         ("link", Json.str "https://www.youtube.com/watch?v=abc&t=10s")],
       Json.obj [("source", Json.str "Vimeo"), ("link", Json.str "https://vimeo.com/1")],
       Json.obj [("source", Json.str " youtube "),
         ("link", Json.str "https://youtu.be/xyz")]])]))
    [Json.obj [("source", Json.str "YouTube"),
       ("link", Json.str "https://www.youtube.com/watch?v=abc&t=10s")],
     Json.obj [("source", Json.str "Vimeo"), ("link", Json.str "https://vimeo.com/1")],
     Json.obj [("source", Json.str " youtube "),
       ("link", Json.str "https://youtu.be/xyz")]]
    rfl
    (by intro hcontra
        rw [show ([Json.obj [("source", Json.str "YouTube"),
             ("link", Json.str "https://www.youtube.com/watch?v=abc&t=10s")],
           Json.obj [("source", Json.str "Vimeo"), ("link", Json.str "https://vimeo.com/1")],
           Json.obj [("source", Json.str " youtube "),
             ("link", Json.str "https://youtu.be/xyz")]].filter isYoutubeSource)
            = Json.obj [("source", Json.str "YouTube"),
                ("link", Json.str "https://www.youtube.com/watch?v=abc&t=10s")]
              :: [Json.obj [("source", Json.str " youtube "),
                ("link", Json.str "https://youtu.be/xyz")]] from rfl] at hcontra
        exact List.noConfusion hcontra)

/-- Auxiliary: the successful shape of the maps section. -/
theorem renderMaps_shape {r : Option Json} {places : List Json}
    (h : placesItems r = some places) (hne : places ≠ []) :
    renderMaps r = MapsOut.mapAndCards
      (jgetD (places.headD Json.null) "latitude" (Json.num 0),
       jgetD (places.headD Json.null) "longitude" (Json.num 0))
      (places.filterMap markerOf)
      ((places.take 5).map placeCard) := by
  have hpos : 0 < places.length := List.length_pos.mpr hne
  simp only [renderMaps, h]
  rw [if_pos hpos]

end PerplexityApp

namespace PerplexityApp

/-- C10 as stated is false: the map center falls back per coordinate, not to
`[0, 0]` whenever a coordinate is missing. Concretely, a first place that
lacks `latitude` but has `longitude = 5` yields center `[0, 5]`, not `[0, 0]`
(and, as the claim says, it also gets no marker). -/
theorem claim_C10_counterexample :
    (Json.obj [("longitude", Json.num 5)]).hasKey "latitude" = false
    ∧ renderMaps (some (Json.obj [("places",
        Json.arr [Json.obj [("longitude", Json.num 5)]])]))
        = MapsOut.mapAndCards (Json.num 0, Json.num 5) []
            [placeCard (Json.obj [("longitude", Json.num 5)])]
    ∧ Json.num 5 ≠ Json.num 0 := by
  refine ⟨rfl, rfl, ?_⟩
  simp

/-- C10 (amended): a marker is added for a place only when both `latitude` and
`longitude` are truthy, so a coordinate of exactly 0 or a missing one gives no
marker; each map-center coordinate independently falls back to 0 when missing
from the first place (so the center is `[0, 0]` when it lacks both); and place
detail cards are shown for at most the first 5 places. -/
theorem claim_C10 :
    (∀ p, jget p "latitude" = some (Json.num 0) → markerOf p = none)
    ∧ (∀ p, jget p "latitude" = none → markerOf p = none)
    ∧ (∀ p, jget p "longitude" = some (Json.num 0) → markerOf p = none)
    ∧ (∀ p, jget p "longitude" = none → markerOf p = none)
    ∧ (∀ p m, markerOf p = some m →
        pyTruthyO (jget p "latitude") = true ∧ pyTruthyO (jget p "longitude") = true)
    ∧ (∀ r places, placesItems r = some places → places ≠ [] →
        renderMaps r = MapsOut.mapAndCards
          (jgetD (places.headD Json.null) "latitude" (Json.num 0),
           jgetD (places.headD Json.null) "longitude" (Json.num 0))
          (places.filterMap markerOf)
          ((places.take 5).map placeCard))
    ∧ (∀ r places, placesItems r = some places → places ≠ [] →
        (places.headD Json.null).hasKey "latitude" = false →
        (places.headD Json.null).hasKey "longitude" = false →
        renderMaps r = MapsOut.mapAndCards (Json.num 0, Json.num 0)
          (places.filterMap markerOf) ((places.take 5).map placeCard))
    ∧ (∀ r c markers cards, renderMaps r = MapsOut.mapAndCards c markers cards →
        cards.length ≤ 5) := by
  refine ⟨?_, ?_, ?_, ?_, ?_, ?_, ?_, ?_⟩
  · intro p h
    simp [markerOf, h, pyTruthyO, pyTruthy]
  · intro p h
    simp [markerOf, h, pyTruthyO]
  · intro p h
    simp [markerOf, h, pyTruthyO, pyTruthy]
  · intro p h
    simp [markerOf, h, pyTruthyO]
  · intro p m hm
    simp only [markerOf] at hm
    by_cases hlat : pyTruthyO (jget p "latitude") = true
    · by_cases hlng : pyTruthyO (jget p "longitude") = true
      · exact ⟨hlat, hlng⟩
      · simp [hlat, hlng] at hm
    · simp [hlat] at hm
  · intro r places h hne
    exact renderMaps_shape h hne
  · intro r places h hne hlat hlng
    have := renderMaps_shape h hne
    rw [this, jgetD, jgetD, jget_eq_none_of_hasKey_false hlat,
      jget_eq_none_of_hasKey_false hlng]
    rfl
  · intro r c markers cards h
    simp only [renderMaps] at h
    cases hp : placesItems r with
    | none => rw [hp] at h; cases h
    | some places =>
      rw [hp] at h
      dsimp only at h
      split at h
      · injection h with h1 h2 h3
        rw [← h3, List.length_map]
        exact List.length_take_le _ _
      · cases h

theorem claim_C10_witness :
    markerOf (Json.obj [("latitude", Json.num 0), ("longitude", Json.num 7)]) = none
    ∧ renderMaps (some (Json.obj [("places",
        Json.arr [Json.obj [("title", Json.str "A")]])]))
        = MapsOut.mapAndCards (Json.num 0, Json.num 0) []
            [placeCard (Json.obj [("title", Json.str "A")])]
    ∧ [placeCard (Json.obj [("title", Json.str "A")])].length ≤ 5 := by
  have h7 := claim_C10.2.2.2.2.2.2.1
    (some (Json.obj [("places", Json.arr [Json.obj [("title", Json.str "A")]])]))
    [Json.obj [("title", Json.str "A")]] rfl
    (by intro hcontra; exact List.noConfusion hcontra) rfl rfl
  exact ⟨claim_C10.1 (Json.obj [("latitude", Json.num 0), ("longitude", Json.num 7)]) rfl,
    h7,
    claim_C10.2.2.2.2.2.2.2
      (some (Json.obj [("places", Json.arr [Json.obj [("title", Json.str "A")]])]))
      (Json.num 0, Json.num 0) [] [placeCard (Json.obj [("title", Json.str "A")])] h7⟩

end PerplexityApp
